import Mathlib

/-!
Verification development for the push-to-talk dictation tool
(`src/mic_transcribe.py`, class `AudioRecorder`).

Shallow embedding conventions:
* Python/numpy floating-point samples are modelled as rationals (`ℚ`);
  the only numeric operation on them, `(audio * 32767).astype(np.int16)`,
  is modelled as exact scaling followed by the C-style truncation toward
  zero and 16-bit two's-complement wrap that a numpy float→int16 cast
  performs.
* External collaborators (the Whisper engine via `whisper.load_model` /
  `model.transcribe`, the `wave` file writer, `pyperclip.copy`, and the
  `xdotool` subprocesses) are oracles collected in an `Env`; each oracle
  yields `Except String _` so that the oracle raising a Python exception
  is the `.error` case.
* The pynput listener delivers key events sequentially on one listener
  thread, and the `sounddevice` callback appends chunks from the capture
  thread; the interleaving is modelled as a single sequential stream of
  `Event`s processed atomically (a `release` step runs all of
  `stop_recording`, so a later `press` is processed only after
  `stop_recording` returned, exactly as on the single listener thread).
* Observable calls to the outside world are recorded as `Effect`s.
-/

/-- A mono audio sample (a Python/numpy float, modelled exactly). -/
abbrev Sample := ℚ

/-- The transcription-trigger key comparison of
`on_key_press`/`on_key_release` (line 87/95): the pynput keys
`Key.cmd`, `Key.cmd_l`, `Key.cmd_r`, or any other key. -/
inductive Key where
  | cmd
  | cmd_l
  | cmd_r
  | other (code : ℕ)
deriving DecidableEq, Repr

/-- `key == Key.cmd or key == Key.cmd_l or key == Key.cmd_r` (lines 87, 95). -/
def isTrigger : Key → Bool
  | Key.cmd => true
  | Key.cmd_l => true
  | Key.cmd_r => true
  | Key.other _ => false

/-- The dictionary returned by `model.transcribe(...)`: `result["text"]`
and `result["language"]`.  A missing `"text"` key (an unusable result,
whose access raises `KeyError`) is `text = none`. -/
structure EngineResult where
  text : Option String
  language : Option String
deriving DecidableEq, Repr

/-- Outcomes of the external collaborators.  An `.error` value means the
corresponding Python call raises an exception. -/
structure Env where
  /-- `whisper.load_model(self.model_name)` (line 188). -/
  load : Except String Unit
  /-- `self.model.transcribe(audio_file, **options)` (line 201), as a
  function of the `options["language"]` entry. -/
  engine : Option String → Except String EngineResult
  /-- the `wave` write in `_save_wav` (lines 175-179). -/
  save : Except String Unit
  /-- `pyperclip.copy(text)` (line 217). -/
  clipboard : Except String Unit
  /-- availability of the `xdotool` binary for `subprocess.run` (lines
  224, 229); `.error` means `FileNotFoundError` on the first call. -/
  inject : Except String Unit

/-- Mutable state of one `AudioRecorder` (the fields of `__init__` that
the core pipeline reads or writes), plus `openStreams`, the number of
`sounddevice.InputStream`s currently open (the stream in `_record` is
open from the successful `sd.InputStream(...).__enter__` until the
`with` block exits). -/
structure RecorderState where
  /-- `self.recording` (line 41). -/
  recording : Bool
  /-- `self.audio_data` (line 42): the appended chunks, in order. -/
  audio_data : List (List Sample)
  /-- `self.sample_rate` (line 43). -/
  sample_rate : ℕ
  /-- `self.model` (line 47): `none` until `whisper.load_model` succeeds,
  then `some model_name`. -/
  model : Option String
  /-- `self.model_name` (line 44). -/
  model_name : String
  /-- `self.language` (line 49). -/
  language : Option String
  /-- `self.terminal_mode` (line 48). -/
  terminal_mode : Bool
  /-- number of currently open input streams (not a Python field; the
  resource being tracked for the single-session invariant). -/
  openStreams : ℕ
deriving DecidableEq, Repr

/-- The observable calls the recorder makes to the outside world. -/
inductive Effect where
  /-- a `sd.InputStream` was opened (entering the `with` in `_record`). -/
  | startStream
  /-- the open `sd.InputStream` was closed (leaving the `with` in `_record`). -/
  | stopStream
  /-- `_save_wav` wrote this WAV file. -/
  | saveWav (nchannels sampwidth framerate : ℕ) (data : List ℕ)
  /-- `whisper.load_model(name)` was called. -/
  | loadModel (name : String)
  /-- `self.model.transcribe(file, **options)` was called with this
  `options["language"]` entry. -/
  | engineTranscribe (lang : Option String)
  /-- `pyperclip.copy(text)` was called. -/
  | clipboardCopy (text : String)
  /-- `subprocess.run(["xdotool", "type", c])` was called. -/
  | injectChar (c : Char)
  /-- `subprocess.run(["xdotool", "key", "ctrl+v"])` was called. -/
  | injectPaste
  /-- `self.keyboard_listener.stop()` was called (line 255). -/
  | stopListener
deriving DecidableEq, Repr

/-- Is the effect the WAV write? -/
def Effect.isSaveWav : Effect → Bool
  | Effect.saveWav _ _ _ _ => true
  | _ => false

/-- Is the effect a `whisper.load_model` call? -/
def Effect.isLoad : Effect → Bool
  | Effect.loadModel _ => true
  | _ => false

/-- Is the effect a `model.transcribe` call? -/
def Effect.isEngine : Effect → Bool
  | Effect.engineTranscribe _ => true
  | _ => false

/-- Is the effect a clipboard write? -/
def Effect.isClipboard : Effect → Bool
  | Effect.clipboardCopy _ => true
  | _ => false

/-- Is the effect an `xdotool` keystroke or paste simulation? -/
def Effect.isInjection : Effect → Bool
  | Effect.injectChar _ => true
  | Effect.injectPaste => true
  | _ => false

/-- Is the effect the closing of the input stream? -/
def Effect.isStopStream : Effect → Bool
  | Effect.stopStream => true
  | _ => false

/-! ### WAV quantization (`_save_wav`, lines 173-180) -/

/-- C-style float→integer conversion: truncation toward zero
(`q.num.tdiv q.den` since `q.den > 0`).  This is what numpy's
`astype` does to each in-range float value. -/
def truncQ (q : ℚ) : ℤ := q.num.tdiv q.den

/-- Reduce an integer to its 16-bit two's-complement value: numpy's
`astype(np.int16)` stores the low 16 bits, so out-of-range values wrap
around instead of saturating. -/
def toInt16 (n : ℤ) : ℤ :=
  let m := n % 65536
  if m < 32768 then m else m - 65536

/-- `(x * 32767).astype(np.int16)` for one sample (line 179): scale by
32767, truncate toward zero, wrap into int16. -/
def quantize (x : Sample) : ℤ := toInt16 (truncQ (x * 32767))

/-- The two little-endian bytes of an int16 value `v`
(`np.int16(...).tobytes()` for one element). -/
def int16ToBytes (v : ℤ) : List ℕ :=
  let u := (v % 65536).toNat
  [u % 256, u / 256]

/-- Reassemble one int16 value from its two little-endian bytes, the way
a WAV reader interprets a 16-bit PCM frame. -/
def bytesToInt16 (b0 b1 : ℕ) : ℤ :=
  let u := b0 + 256 * b1
  if u < 32768 then (u : ℤ) else (u : ℤ) - 65536

/-- The WAV file produced by `_save_wav`: header fields set by
`setnchannels` / `setsampwidth` / `setframerate`, and the raw bytes
passed to `writeframes`. -/
structure WavFile where
  nchannels : ℕ
  sampwidth : ℕ
  framerate : ℕ
  data : List ℕ
deriving DecidableEq, Repr

/-- `_save_wav(filename, audio)` (lines 173-180): mono, 2-byte samples,
the configured rate, and `(audio * 32767).astype(np.int16).tobytes()`. -/
def save_wav (sample_rate : ℕ) (audio : List Sample) : WavFile :=
  { nchannels := 1
    sampwidth := 2
    framerate := sample_rate
    data := (audio.map quantize).flatMap int16ToBytes }

/-- Read the 16-bit PCM frames back from the file's byte data
(what `wave`'s `readframes` hands back, decoded two bytes at a time). -/
def decodeFrames : List ℕ → List ℤ
  | b0 :: b1 :: rest => bytesToInt16 b0 b1 :: decodeFrames rest
  | _ => []

/-! ### Transcription (`transcribe`, lines 182-211) -/

/-- Python's `str.lower()` (ASCII case folding, which covers every
language name the program handles). -/
def pyLower (text : String) : String :=
  String.mk (text.data.map Char.toLower)

/-- The character class Python's `str.isspace()` accepts and
`str.strip()` removes: the ASCII control whitespace `\t \n \v \f \r`,
the separator controls `\x1c`-`\x1f`, the space, next-line `\x85`,
no-break space `\xa0`, ogham space ` `, the en/em-family spaces
` `-` `, line separator ` `, paragraph separator
` `, narrow no-break space ` `, medium mathematical space
` `, and ideographic space `　`. -/
def pyIsSpace (c : Char) : Bool :=
  (9 ≤ c.toNat && c.toNat ≤ 13) ||
  (28 ≤ c.toNat && c.toNat ≤ 32) ||
  c.toNat == 133 ||
  c.toNat == 160 ||
  c.toNat == 5760 ||
  (8192 ≤ c.toNat && c.toNat ≤ 8202) ||
  c.toNat == 8232 ||
  c.toNat == 8233 ||
  c.toNat == 8239 ||
  c.toNat == 8287 ||
  c.toNat == 12288

/-- Python's `str.strip()`: drop leading and trailing whitespace
(Python's Unicode whitespace class, `pyIsSpace`). -/
def pyStrip (text : String) : String :=
  String.mk
    (((text.data.dropWhile pyIsSpace).reverse.dropWhile
        pyIsSpace).reverse)

/-- `self.language_codes` (lines 52-55). -/
def languageCodes (name : String) : Option String :=
  if name = "english" then some "en"
  else if name = "norwegian" then some "no"
  else none

/-- `self.language_codes.get(self.language.lower(), self.language)`
(line 196). -/
def langCode (name : String) : String :=
  (languageCodes (pyLower name)).getD name

/-- The `options["language"]` entry built at lines 192-197: present only
when `self.language` is truthy (Python: `None` and `""` are falsy). -/
def languageOption : Option String → Option String
  | none => none
  | some l => if l = "" then none else some (langCode l)

/-- Engine call of `transcribe` once `self.model` is loaded (lines
192-207): build the language option, call the engine, take
`result["text"]`; any exception (engine raise, or `KeyError` on a result
without `"text"`) falls to the `except` at line 209 and yields `""`. -/
def transcribeWithModel (env : Env) (s : RecorderState) : List Effect × String :=
  let lo := languageOption s.language
  match env.engine lo with
  | Except.error _ => ([Effect.engineTranscribe lo], "")
  | Except.ok r =>
    match r.text with
    | none => ([Effect.engineTranscribe lo], "")
    | some t => ([Effect.engineTranscribe lo], t)

/-- `transcribe(audio_file)` (lines 182-211): load the model on first
use (lines 186-189), then run the engine; any exception is caught at
line 209 and the call returns `""`.  The returned state records the
loaded model. -/
def transcribe (env : Env) (s : RecorderState) :
    RecorderState × List Effect × String :=
  match s.model with
  | none =>
    match env.load with
    | Except.error _ => (s, [Effect.loadModel s.model_name], "")
    | Except.ok _ =>
      let s' := { s with model := some s.model_name }
      let r := transcribeWithModel env s'
      (s', Effect.loadModel s.model_name :: r.1, r.2)
  | some _ =>
    let r := transcribeWithModel env s
    (s, r.1, r.2)

/-! ### Text delivery (`insert_text`, lines 213-234) -/

/-- `insert_text(text)` (lines 213-234): copy to the clipboard, then
either type character by character (terminal mode) or simulate a paste
chord; `pyperclip.copy` raising, or `xdotool` being absent
(`FileNotFoundError` on the first `subprocess.run`), is caught by the
`except` at line 231. -/
def insert_text (env : Env) (terminal_mode : Bool) (text : String) : List Effect :=
  Effect.clipboardCopy text ::
    match env.clipboard with
    | Except.error _ => []
    | Except.ok _ =>
      match env.inject with
      | Except.error _ => []
      | Except.ok _ =>
        if terminal_mode then text.data.map Effect.injectChar
        else [Effect.injectPaste]

/-- Lines 162-166 of `stop_recording`: `if text and text.strip():
self.insert_text(text)`. -/
def deliver_step (env : Env) (terminal_mode : Bool) (text : String) : List Effect :=
  if !(text == "") && !(pyStrip text == "") then insert_text env terminal_mode text
  else []

/-! ### Stopping and processing (`stop_recording`, lines 130-171) -/

/-- `np.concatenate(self.audio_data, axis=0).flatten()` (line 146). -/
def flattenAudio (chunks : List (List Sample)) : List Sample := chunks.flatten

/-- Lines 143-171 of `stop_recording`: if any chunks were captured,
flatten them, discard the clip when shorter than half the sample rate
(`len(audio) < self.sample_rate * 0.5`, i.e. `2 * len < rate`),
otherwise save the WAV, transcribe, and deliver non-blank text.  Every
exception inside is caught by the `except` at line 168, so each failing
oracle simply cuts the effect sequence short. -/
def process_audio (env : Env) (s : RecorderState) : RecorderState × List Effect :=
  if s.audio_data.length = 0 then (s, [])
  else
    let audio := flattenAudio s.audio_data
    if 2 * audio.length < s.sample_rate then (s, [])
    else
      let w := save_wav s.sample_rate audio
      let wavEff := Effect.saveWav w.nchannels w.sampwidth w.framerate w.data
      match env.save with
      | Except.error _ => (s, [wavEff])
      | Except.ok _ =>
        let r := transcribe env s
        (r.1, wavEff :: r.2.1 ++ deliver_step env r.1.terminal_mode r.2.2)

/-- `stop_recording()` (lines 130-171): early-return when not recording;
otherwise clear `self.recording`, join the capture thread (the `with`
block in `_record` then closes the stream), and process the audio. -/
def stop_recording (env : Env) (s : RecorderState) : RecorderState × List Effect :=
  if s.recording = false then (s, [])
  else
    let s1 := { s with recording := false, openStreams := s.openStreams - 1 }
    let r := process_audio env s1
    (r.1, Effect.stopStream :: r.2)

/-! ### Starting, callbacks, key handlers, events -/

/-- `start_recording()` (lines 101-110): set the flag, clear the chunk
list, and spawn `_record`, which opens the input stream. -/
def start_recording (s : RecorderState) : RecorderState × List Effect :=
  ({ s with recording := true, audio_data := [], openStreams := s.openStreams + 1 },
   [Effect.startStream])

/-- `_audio_callback(indata, ...)` (lines 123-128): append the chunk
while recording. -/
def audio_callback (s : RecorderState) (chunk : List Sample) : RecorderState :=
  if s.recording then { s with audio_data := s.audio_data ++ [chunk] } else s

/-- The `except` branch of `_record` (lines 119-121): a stream error
ends the session (clears the flag); the `with` block closes whatever
stream was open. -/
def stream_error (s : RecorderState) : RecorderState × List Effect :=
  ({ s with recording := false, openStreams := s.openStreams - 1 },
   [Effect.stopStream])

/-- `on_key_press(key)` (lines 85-91). -/
def on_key_press (s : RecorderState) (k : Key) : RecorderState × List Effect :=
  if isTrigger k && !s.recording then start_recording s else (s, [])

/-- `on_key_release(key)` (lines 93-99). -/
def on_key_release (env : Env) (s : RecorderState) (k : Key) :
    RecorderState × List Effect :=
  if isTrigger k && s.recording then stop_recording env s else (s, [])

/-- `run()`'s shutdown path (lines 248-256): `KeyboardInterrupt` is
caught in the main loop and the `finally` block stops only the keyboard
listener.  Nothing clears `self.recording`, joins `record_thread`
(a daemon thread, line 109), or closes the input stream. -/
def run_interrupt (s : RecorderState) : RecorderState × List Effect :=
  (s, [Effect.stopListener])

/-- One externally observable event driving the recorder. -/
inductive Event where
  /-- a pynput key-press delivered to `on_key_press`. -/
  | press (k : Key)
  /-- a pynput key-release delivered to `on_key_release`. -/
  | release (k : Key)
  /-- the capture backend delivering a chunk to `_audio_callback`. -/
  | chunk (c : List Sample)
  /-- the input stream raising inside `_record`. -/
  | streamError
deriving DecidableEq, Repr

/-- Process one event.  Events are handled atomically: pynput delivers
press/release callbacks sequentially on its single listener thread, so
the whole of `stop_recording` runs before the next key event. -/
def step (env : Env) (s : RecorderState) : Event → RecorderState × List Effect
  | Event.press k => on_key_press s k
  | Event.release k => on_key_release env s k
  | Event.chunk c => (audio_callback s c, [])
  | Event.streamError => stream_error s

/-- Run a sequence of events, accumulating effects. -/
def runEvents (env : Env) (s : RecorderState) : List Event → RecorderState × List Effect
  | [] => (s, [])
  | e :: es =>
    let r := step env s e
    let r' := runEvents env r.1 es
    (r'.1, r.2 ++ r'.2)

/-- Every state passed through while running a sequence of events
(including the initial and final ones). -/
def states (env : Env) (s : RecorderState) : List Event → List RecorderState
  | [] => [s]
  | e :: es => s :: states env (step env s e).1 es

/-- The state built by `__init__` (lines 39-49): not recording, no
chunks, no model loaded, no stream open. -/
def initState (sample_rate : ℕ) (model_name : String) (language : Option String)
    (terminal_mode : Bool) : RecorderState :=
  { recording := false
    audio_data := []
    sample_rate := sample_rate
    model := none
    model_name := model_name
    language := language
    terminal_mode := terminal_mode
    openStreams := 0 }

/-- A benign environment in which every collaborator succeeds; used for
concrete evaluations. -/
def env0 : Env :=
  { load := Except.ok ()
    engine := fun _ => Except.ok { text := some "hello world", language := some "en" }
    save := Except.ok ()
    clipboard := Except.ok ()
    inject := Except.ok () }

/-- Decode the PCM frames of a WAV file (what a reader of the file sees). -/
def readFrames (w : WavFile) : List ℤ := decodeFrames w.data

/-! ### Helper lemmas -/

theorem toInt16_range (n : ℤ) : -32768 ≤ toInt16 n ∧ toInt16 n ≤ 32767 := by
  simp only [toInt16]
  split <;> omega

theorem toInt16_of_range (n : ℤ) (h1 : -32768 ≤ n) (h2 : n ≤ 32767) :
    toInt16 n = n := by
  simp only [toInt16]
  split <;> omega

theorem quantize_range (x : Sample) :
    -32768 ≤ quantize x ∧ quantize x ≤ 32767 :=
  toInt16_range _

theorem decode_encode (v : ℤ) (rest : List ℕ)
    (h1 : -32768 ≤ v) (h2 : v ≤ 32767) :
    decodeFrames (int16ToBytes v ++ rest) = v :: decodeFrames rest := by
  have hb : bytesToInt16 ((v % 65536).toNat % 256) ((v % 65536).toNat / 256) = v := by
    simp only [bytesToInt16]
    split <;> omega
  simp [int16ToBytes, decodeFrames, hb]

theorem decodeFrames_encode (l : List ℤ)
    (h : ∀ v ∈ l, -32768 ≤ v ∧ v ≤ 32767) :
    decodeFrames (l.flatMap int16ToBytes) = l := by
  induction l with
  | nil => rfl
  | cons v t ih =>
    have hv := h v (List.mem_cons_self v t)
    rw [List.flatMap_cons, decode_encode v _ hv.1 hv.2,
      ih fun w hw => h w (List.mem_cons_of_mem v hw)]

/-- C5: for every float sample sequence, `_save_wav` writes a mono
(1-channel), 16-bit (2-byte) PCM file at the configured sample rate,
where each sample is scaled by 32767 and converted to int16
(`quantize`), and decoding the written frames back yields exactly the
int16 values that were written — the float→int16 quantization is the
only lossy step and it is the deterministic function `quantize`. -/
theorem save_wav_format_and_roundtrip (sample_rate : ℕ) (audio : List Sample) :
    (save_wav sample_rate audio).nchannels = 1 ∧
    (save_wav sample_rate audio).sampwidth = 2 ∧
    (save_wav sample_rate audio).framerate = sample_rate ∧
    readFrames (save_wav sample_rate audio) = audio.map quantize := by
  refine ⟨rfl, rfl, rfl, ?_⟩
  simp only [readFrames, save_wav]
  exact decodeFrames_encode _ fun v hv => by
    obtain ⟨x, -, rfl⟩ := List.mem_map.1 hv
    exact quantize_range x

/-- C10: `_save_wav` does not clamp samples before conversion: whenever
the truncation toward zero of `x * 32767` fits in int16, the stored
value is exactly that truncation; a scaled value outside the int16 range
is stored as its 16-bit two's-complement reinterpretation (congruent
modulo 2^16 and inside the int16 range), never as a saturated value —
e.g. the sample `2` is stored as `-2` (the wrap of `65534`), not as the
saturation value `32767`. -/
theorem quantize_truncates_and_wraps :
    (∀ x : Sample, -32768 ≤ truncQ (x * 32767) → truncQ (x * 32767) ≤ 32767 →
      quantize x = truncQ (x * 32767)) ∧
    (∀ x : Sample, (quantize x - truncQ (x * 32767)) % 65536 = 0 ∧
      -32768 ≤ quantize x ∧ quantize x ≤ 32767) ∧
    quantize 2 = -2 ∧ (-2 : ℤ) ≠ 32767 := by
  refine ⟨fun x h1 h2 => toInt16_of_range _ h1 h2, fun x => ⟨?_, quantize_range x⟩,
    ?_, by decide⟩
  · simp only [quantize, toInt16]
    split <;> omega
  · simp only [quantize, truncQ, toInt16]
    norm_num

/-- Witness for C10 at a concrete sample: `1` scales into range and is
stored as its truncation `32767`. -/
theorem quantize_truncates_and_wraps_witness :
    quantize 1 = truncQ ((1 : ℚ) * 32767) := by
  have h : truncQ ((1 : ℚ) * 32767) = 32767 := by
    simp only [truncQ]
    norm_num
  exact quantize_truncates_and_wraps.1 1 (by rw [h]; norm_num) (by rw [h])

theorem transcribeWithModel_effects (env : Env) (s : RecorderState) :
    (transcribeWithModel env s).1 =
      [Effect.engineTranscribe (languageOption s.language)] := by
  simp only [transcribeWithModel]
  cases env.engine (languageOption s.language) with
  | error e => rfl
  | ok r =>
    obtain ⟨t, lg⟩ := r
    cases t <;> rfl

theorem transcribe_fields (env : Env) (s : RecorderState) :
    (transcribe env s).1.recording = s.recording ∧
    (transcribe env s).1.openStreams = s.openStreams ∧
    (transcribe env s).1.terminal_mode = s.terminal_mode ∧
    (transcribe env s).1.language = s.language ∧
    (transcribe env s).1.model_name = s.model_name := by
  cases hm : s.model with
  | none => cases hl : env.load <;> simp [transcribe, hm, hl]
  | some m => simp [transcribe, hm]

theorem transcribe_effects (env : Env) (s : RecorderState) :
    (transcribe env s).2.1 = [Effect.engineTranscribe (languageOption s.language)] ∨
    (transcribe env s).2.1 = [Effect.loadModel s.model_name] ∨
    (transcribe env s).2.1 = [Effect.loadModel s.model_name,
      Effect.engineTranscribe (languageOption s.language)] := by
  cases hm : s.model with
  | none =>
    cases hl : env.load with
    | error e =>
      right; left
      simp [transcribe, hm, hl]
    | ok u =>
      right; right
      simp [transcribe, hm, hl, transcribeWithModel_effects]
  | some m =>
    left
    simp [transcribe, hm, transcribeWithModel_effects]

theorem transcribe_countP_zero (env : Env) (s : RecorderState) (p : Effect → Bool)
    (hEng : ∀ lo, p (Effect.engineTranscribe lo) = false)
    (hLoad : ∀ nm, p (Effect.loadModel nm) = false) :
    (transcribe env s).2.1.countP p = 0 := by
  rcases transcribe_effects env s with h | h | h <;>
    simp [h, List.countP_cons, hEng, hLoad]

theorem transcribe_engine_count (env : Env) (s : RecorderState)
    (hl : env.load = Except.ok ()) :
    (transcribe env s).2.1.countP Effect.isEngine = 1 := by
  cases hm : s.model with
  | none =>
    simp [transcribe, hm, hl, transcribeWithModel_effects, List.countP_cons,
      Effect.isEngine, Effect.isLoad]
  | some m =>
    simp [transcribe, hm, transcribeWithModel_effects, List.countP_cons,
      Effect.isEngine]

theorem deliver_step_countP_zero (env : Env) (tm : Bool) (text : String)
    (p : Effect → Bool)
    (hClip : ∀ t, p (Effect.clipboardCopy t) = false)
    (hChar : ∀ c, p (Effect.injectChar c) = false)
    (hPaste : p Effect.injectPaste = false) :
    (deliver_step env tm text).countP p = 0 := by
  unfold deliver_step insert_text
  split
  · cases env.clipboard with
    | error e => simp [List.countP_cons, hClip]
    | ok u =>
      cases env.inject with
      | error e => simp [List.countP_cons, hClip]
      | ok u' =>
        cases tm <;>
          simp [List.countP_cons, hClip, hPaste, List.countP_eq_zero]
        exact fun e _ => hChar e
  · rfl

theorem process_audio_fields (env : Env) (s : RecorderState) :
    (process_audio env s).1.recording = s.recording ∧
    (process_audio env s).1.openStreams = s.openStreams := by
  unfold process_audio
  by_cases h0 : s.audio_data.length = 0
  · simp [h0]
  · by_cases h1 : 2 * (flattenAudio s.audio_data).length < s.sample_rate
    · simp [h0, h1]
    · cases hs : env.save with
      | error e => simp [h0, h1, hs]
      | ok u =>
        simp only [h0, h1, hs, if_neg, if_false]
        exact ⟨(transcribe_fields env s).1, (transcribe_fields env s).2.1⟩

theorem stop_recording_eq (env : Env) (s : RecorderState) (h : s.recording = true) :
    stop_recording env s =
      ((process_audio env
          { s with recording := false, openStreams := s.openStreams - 1 }).1,
       Effect.stopStream ::
         (process_audio env
           { s with recording := false, openStreams := s.openStreams - 1 }).2) := by
  simp [stop_recording, h]

theorem process_audio_empty (env : Env) (s : RecorderState)
    (h0 : s.audio_data.length = 0) :
    process_audio env s = (s, []) := by
  simp [process_audio, h0]

theorem process_audio_short (env : Env) (s : RecorderState)
    (h : 2 * (flattenAudio s.audio_data).length < s.sample_rate) :
    (process_audio env s).2 = [] := by
  unfold process_audio
  by_cases h0 : s.audio_data.length = 0
  · simp [h0]
  · simp [h0, h]

theorem process_audio_go (env : Env) (s : RecorderState)
    (h0 : ¬ s.audio_data.length = 0)
    (h1 : ¬ 2 * (flattenAudio s.audio_data).length < s.sample_rate)
    (hsave : env.save = Except.ok ()) :
    process_audio env s =
      ((transcribe env s).1,
       Effect.saveWav 1 2 s.sample_rate
           (save_wav s.sample_rate (flattenAudio s.audio_data)).data ::
         (transcribe env s).2.1 ++
           deliver_step env (transcribe env s).1.terminal_mode
             (transcribe env s).2.2) := by
  simp [process_audio, h0, h1, hsave, save_wav]

/-- C2: when a finalized recording flattens to fewer than
`sample_rate * 0.5` samples (`2 * len < rate`), `stop_recording` writes
no WAV file and never calls the transcription engine; when it flattens
to exactly `sample_rate * 0.5` samples (`2 * len = rate`), the engine is
called (once the `wave` write and the one-time model load succeed). -/
theorem min_duration_gate (env : Env) (s : RecorderState)
    (hrec : s.recording = true) :
    (2 * (flattenAudio s.audio_data).length < s.sample_rate →
      (stop_recording env s).2.countP Effect.isSaveWav = 0 ∧
      (stop_recording env s).2.countP Effect.isEngine = 0) ∧
    (2 * (flattenAudio s.audio_data).length = s.sample_rate →
      0 < s.sample_rate → env.save = Except.ok () → env.load = Except.ok () →
      (stop_recording env s).2.countP Effect.isEngine = 1) := by
  rw [stop_recording_eq env s hrec]
  set s1 : RecorderState :=
    { s with recording := false, openStreams := s.openStreams - 1 } with hs1
  have hdata : s1.audio_data = s.audio_data := rfl
  have hrate : s1.sample_rate = s.sample_rate := rfl
  constructor
  · intro hshort
    rw [process_audio_short env s1 (by rw [hdata, hrate]; exact hshort)]
    simp [Effect.isSaveWav, Effect.isEngine]
  · intro hlen hpos hsave hload
    have hne : ¬ s1.audio_data.length = 0 := by
      rw [hdata]
      intro h0
      rw [List.length_eq_zero] at h0
      rw [h0] at hlen
      simp [flattenAudio] at hlen
      omega
    have hns : ¬ 2 * (flattenAudio s1.audio_data).length < s1.sample_rate := by
      rw [hdata, hrate]
      omega
    rw [process_audio_go env s1 hne hns hsave]
    simp only [List.countP_cons, List.countP_append, Effect.isEngine,
      Effect.isStopStream]
    rw [transcribe_engine_count env s1 hload]
    rw [deliver_step_countP_zero env _ _ Effect.isEngine
      (fun _ => rfl) (fun _ => rfl) rfl]
    rfl

/-- A concrete recorder state mid-recording whose single chunk is
shorter than half the sample rate. -/
def sShort : RecorderState :=
  { recording := true
    audio_data := [[1/2]]
    sample_rate := 4
    model := none
    model_name := "medium"
    language := none
    terminal_mode := false
    openStreams := 1 }

/-- A concrete recorder state mid-recording whose chunks flatten to
exactly half the sample rate. -/
def sHalf : RecorderState :=
  { recording := true
    audio_data := [[1/2], [1/2]]
    sample_rate := 4
    model := none
    model_name := "medium"
    language := none
    terminal_mode := false
    openStreams := 1 }

/-- Witness for C2: a 1-sample clip at rate 4 (0.25 s) is discarded; a
2-sample clip at rate 4 (exactly 0.5 s) reaches the engine. -/
theorem min_duration_gate_witness :
    ((stop_recording env0 sShort).2.countP Effect.isSaveWav = 0 ∧
     (stop_recording env0 sShort).2.countP Effect.isEngine = 0) ∧
    (stop_recording env0 sHalf).2.countP Effect.isEngine = 1 :=
  ⟨(min_duration_gate env0 sShort rfl).1 (by norm_num [sShort, flattenAudio]),
   (min_duration_gate env0 sHalf rfl).2 (by norm_num [sHalf, flattenAudio])
     (by norm_num [sHalf]) rfl rfl⟩

/-- C3: for every environment — including ones where the WAV write, the
model load, the engine, the clipboard, or the injection tool raises —
a `Released`-edge `stop_recording` on a recording state finishes with
the recording flag cleared and the capture stream closed (back to Idle,
never stuck in Recording or Processing); `stop_recording` is a total
function, i.e. every exception in the pathway is caught inside it. -/
theorem released_edge_returns_to_idle (env : Env) (s : RecorderState)
    (hrec : s.recording = true) :
    (stop_recording env s).1.recording = false ∧
    (s.openStreams = 1 → (stop_recording env s).1.openStreams = 0) := by
  rw [stop_recording_eq env s hrec]
  refine ⟨(process_audio_fields env _).1, fun h1 => ?_⟩
  rw [(process_audio_fields env _).2]
  simp [h1]

/-- Witness for C3: stopping the short-clip state in the benign
environment ends Idle with the stream closed. -/
theorem released_edge_returns_to_idle_witness :
    (stop_recording env0 sShort).1.recording = false ∧
    (stop_recording env0 sShort).1.openStreams = 0 := by
  have h := released_edge_returns_to_idle env0 sShort rfl
  exact ⟨h.1, h.2 rfl⟩

theorem transcribeWithModel_text_empty (env : Env) (s : RecorderState)
    (heng : ∀ lo r, env.engine lo = Except.ok r → r.text = none) :
    (transcribeWithModel env s).2 = "" := by
  simp only [transcribeWithModel]
  cases he : env.engine (languageOption s.language) with
  | error e => rfl
  | ok r => simp [heng _ r he]

theorem transcribe_text_empty (env : Env) (s : RecorderState)
    (heng : ∀ lo r, env.engine lo = Except.ok r → r.text = none) :
    (transcribe env s).2.2 = "" := by
  cases hm : s.model with
  | none =>
    cases hl : env.load with
    | error e => simp [transcribe, hm, hl]
    | ok u => simp [transcribe, hm, hl, transcribeWithModel_text_empty env _ heng]
  | some m => simp [transcribe, hm, transcribeWithModel_text_empty env _ heng]

theorem deliver_step_of_empty (env : Env) (tm : Bool) :
    deliver_step env tm "" = [] := rfl

theorem process_audio_countP_zero_of_text_empty (env : Env) (s : RecorderState)
    (p : Effect → Bool)
    (hss : ∀ a b c d, p (Effect.saveWav a b c d) = false)
    (hEng : ∀ lo, p (Effect.engineTranscribe lo) = false)
    (hLoad : ∀ nm, p (Effect.loadModel nm) = false)
    (htext : (transcribe env s).2.2 = "") :
    (process_audio env s).2.countP p = 0 := by
  by_cases h0 : s.audio_data.length = 0
  · rw [process_audio_empty env s h0]
    rfl
  · by_cases h1 : 2 * (flattenAudio s.audio_data).length < s.sample_rate
    · rw [process_audio_short env s h1]
      rfl
    · cases hs : env.save with
      | error e => simp [process_audio, h0, h1, hs, List.countP_cons, hss]
      | ok u =>
        rw [process_audio_go env s h0 h1 hs]
        simp only [List.countP_cons, List.countP_append, hss]
        rw [htext, deliver_step_of_empty, transcribe_countP_zero env s p hEng hLoad]
        rfl

theorem stop_recording_countP_zero_of_unusable (env : Env) (s : RecorderState)
    (p : Effect → Bool)
    (hstop : p Effect.stopStream = false)
    (hss : ∀ a b c d, p (Effect.saveWav a b c d) = false)
    (hEng : ∀ lo, p (Effect.engineTranscribe lo) = false)
    (hLoad : ∀ nm, p (Effect.loadModel nm) = false)
    (heng : ∀ lo r, env.engine lo = Except.ok r → r.text = none) :
    (stop_recording env s).2.countP p = 0 := by
  unfold stop_recording
  split
  · rfl
  · simp only [List.countP_cons, hstop]
    rw [process_audio_countP_zero_of_text_empty env _ p hss hEng hLoad
      (transcribe_text_empty env _ heng)]
    simp

/-- C4: whenever the external engine raises on every call (or returns a
result without a usable `"text"` entry), `transcribe` returns the empty
string instead of raising, and the whole `stop_recording` pipeline
performs no clipboard write and no injection for that clip. -/
theorem engine_failure_maps_to_empty (env : Env) (s : RecorderState)
    (heng : ∀ lo r, env.engine lo = Except.ok r → r.text = none) :
    (transcribe env s).2.2 = "" ∧
    (stop_recording env s).2.countP Effect.isClipboard = 0 ∧
    (stop_recording env s).2.countP Effect.isInjection = 0 :=
  ⟨transcribe_text_empty env s heng,
   stop_recording_countP_zero_of_unusable env s Effect.isClipboard rfl
     (fun _ _ _ _ => rfl) (fun _ => rfl) (fun _ => rfl) heng,
   stop_recording_countP_zero_of_unusable env s Effect.isInjection rfl
     (fun _ _ _ _ => rfl) (fun _ => rfl) (fun _ => rfl) heng⟩

/-- An environment whose transcription engine always raises. -/
def envEngineFail : Env :=
  { load := Except.ok ()
    engine := fun _ => Except.error "engine crashed"
    save := Except.ok ()
    clipboard := Except.ok ()
    inject := Except.ok () }

/-- Witness for C4: with the always-raising engine, a 0.5-second clip
yields the empty string and no delivery effects. -/
theorem engine_failure_maps_to_empty_witness :
    (transcribe envEngineFail sHalf).2.2 = "" ∧
    (stop_recording envEngineFail sHalf).2.countP Effect.isClipboard = 0 ∧
    (stop_recording envEngineFail sHalf).2.countP Effect.isInjection = 0 :=
  engine_failure_maps_to_empty envEngineFail sHalf
    (fun lo r h => by simp [envEngineFail] at h)

theorem insert_text_clipboard_count (env : Env) (tm : Bool) (text : String) :
    (insert_text env tm text).countP Effect.isClipboard = 1 := by
  unfold insert_text
  cases env.clipboard with
  | error e => rfl
  | ok u =>
    cases env.inject with
    | error e => rfl
    | ok u' =>
      cases tm <;>
        simp [List.countP_cons, Effect.isClipboard, List.countP_eq_zero]

/-- C6: `stop_recording`'s delivery gate — text that is empty or
whitespace-only is skipped entirely (no clipboard write, no keystroke or
paste simulation: the delivery step produces no effect at all), while
text with non-whitespace content is handed to `insert_text` exactly
once, producing exactly one clipboard-write call. -/
theorem blank_text_skips_delivery (env : Env) (tm : Bool) (text : String) :
    (pyStrip text = "" → deliver_step env tm text = []) ∧
    (pyStrip text ≠ "" →
      deliver_step env tm text = insert_text env tm text ∧
      (deliver_step env tm text).countP Effect.isClipboard = 1) := by
  constructor
  · intro h
    unfold deliver_step
    by_cases h0 : text = ""
    · simp [h0]
    · simp [h0, h]
  · intro h
    have h0 : text ≠ "" := fun he => h (by rw [he]; rfl)
    have hd : deliver_step env tm text = insert_text env tm text := by
      unfold deliver_step
      simp [h0, h]
    exact ⟨hd, by rw [hd, insert_text_clipboard_count]⟩

/-- Witness for C6: whitespace-only text — both ASCII whitespace and a
lone no-break space (stripped by Python, exercising the full `pyIsSpace`
class) — produces no effects; `"hi"` produces exactly one clipboard
write. -/
theorem blank_text_skips_delivery_witness :
    deliver_step env0 false " \t " = [] ∧
    deliver_step env0 false "\u00A0" = [] ∧
    (deliver_step env0 false "hi").countP Effect.isClipboard = 1 :=
  ⟨(blank_text_skips_delivery env0 false " \t ").1 (by decide),
   (blank_text_skips_delivery env0 false "\u00A0").1 (by decide),
   ((blank_text_skips_delivery env0 false "hi").2 (by decide)).2⟩

/-! ### The single-session invariant (C1) -/

/-- The session invariant: exactly one input stream is open while the
recording flag is set, none otherwise (so never more than one). -/
def SessionInv (s : RecorderState) : Prop :=
  s.openStreams = if s.recording then 1 else 0

theorem stop_recording_fields (env : Env) (s : RecorderState)
    (h : s.recording = true) :
    (stop_recording env s).1.recording = false ∧
    (stop_recording env s).1.openStreams = s.openStreams - 1 := by
  rw [stop_recording_eq env s h]
  exact ⟨(process_audio_fields env _).1, (process_audio_fields env _).2⟩

theorem step_inv (env : Env) (s : RecorderState) (e : Event) (h : SessionInv s) :
    SessionInv (step env s e).1 := by
  cases e with
  | press k =>
    simp only [step, on_key_press]
    cases hrec : s.recording with
    | true =>
      simp only [hrec, Bool.not_true, Bool.and_false, if_false]
      exact h
    | false =>
      cases htr : isTrigger k with
      | false =>
        simp only [htr, Bool.false_and, if_false]
        exact h
      | true =>
        simp only [htr, hrec, Bool.not_false, Bool.and_true, if_true]
        simp only [SessionInv, hrec, if_neg Bool.false_ne_true] at h
        simp [SessionInv, start_recording, h]
  | release k =>
    simp only [step, on_key_release]
    cases hrec : s.recording with
    | false =>
      simp only [hrec, Bool.and_false, if_false]
      exact h
    | true =>
      cases htr : isTrigger k with
      | false =>
        simp only [htr, Bool.false_and, if_false]
        exact h
      | true =>
        simp only [htr, hrec, Bool.and_true, if_true]
        have hf := stop_recording_fields env s hrec
        simp only [SessionInv, hrec, if_pos rfl] at h
        simp only [SessionInv, hf.1, hf.2, h]
        simp
  | chunk c =>
    simp only [step]
    unfold audio_callback
    split
    · exact h
    · exact h
  | streamError =>
    simp only [step, stream_error]
    unfold SessionInv at h ⊢
    cases hrec : s.recording <;> simp [hrec] at h <;> simp [h]

theorem states_inv (env : Env) (evs : List Event) :
    ∀ s : RecorderState, SessionInv s → ∀ s' ∈ states env s evs, SessionInv s' := by
  induction evs with
  | nil =>
    intro s h s' hmem
    simp only [states, List.mem_singleton] at hmem
    rwa [hmem]
  | cons e es ih =>
    intro s h s' hmem
    simp only [states, List.mem_cons] at hmem
    rcases hmem with rfl | hmem
    · exact h
    · exact ih _ (step_inv env s e h) s' hmem

/-- C1: along every sequence of key-press/key-release/chunk/stream-error
events from the freshly initialized recorder, at most one capture
session (input stream) is ever open; and a `Pressed` edge delivered
while the recording flag is set is a strict no-op (state unchanged, no
effect).  Because pynput invokes the handlers sequentially on one
listener thread, a `Pressed` edge that arrives during the processing of
a `Released` edge is handled only after `stop_recording` finished — it
is the next `Event.press` in the sequence, and by the invariant it can
never open a second simultaneous session. -/
theorem at_most_one_capture_session :
    (∀ (env : Env) (sample_rate : ℕ) (model_name : String)
       (language : Option String) (terminal_mode : Bool) (evs : List Event)
       (s' : RecorderState),
       s' ∈ states env (initState sample_rate model_name language terminal_mode) evs →
       s'.openStreams ≤ 1) ∧
    (∀ (env : Env) (s : RecorderState) (k : Key), s.recording = true →
       step env s (Event.press k) = (s, [])) := by
  constructor
  · intro env sr mn lang tm evs s' hmem
    have hinv : SessionInv s' :=
      states_inv env evs _ (by simp [SessionInv, initState]) s' hmem
    unfold SessionInv at hinv
    rw [hinv]
    split <;> omega
  · intro env s k h
    simp [step, on_key_press, h]

/-- The state right after the trigger was pressed from the initial
state: recording with one open stream. -/
def startedState : RecorderState :=
  (start_recording (initState 16000 "medium" none false)).1

/-- Witness for C1: the state reached by one trigger press has at most
one open stream, and pressing the trigger again in it changes nothing. -/
theorem at_most_one_capture_session_witness :
    startedState.openStreams ≤ 1 ∧
    step env0 startedState (Event.press Key.cmd) = (startedState, []) :=
  ⟨at_most_one_capture_session.1 env0 16000 "medium" none false
     [Event.press Key.cmd] startedState (by decide),
   at_most_one_capture_session.2 env0 startedState Key.cmd rfl⟩

/-- C7 (the spec demands the opposite): on `KeyboardInterrupt` during an
active capture session, `run()`'s shutdown path stops only the keyboard
listener — the recording flag stays set, the daemon capture thread is
never joined, and not a single stream-close happens before the process
exits, so the active capture stream is NOT stopped. -/
theorem interrupt_leaves_capture_stream_open (s : RecorderState)
    (hrec : s.recording = true) (hopen : s.openStreams = 1) :
    (run_interrupt s).1.recording = true ∧
    (run_interrupt s).1.openStreams = 1 ∧
    (run_interrupt s).2.countP Effect.isStopStream = 0 :=
  ⟨hrec, hopen, rfl⟩

/-- Witness for C7: interrupting mid-recording leaves the stream open. -/
theorem interrupt_leaves_capture_stream_open_witness :
    (run_interrupt startedState).1.recording = true ∧
    (run_interrupt startedState).1.openStreams = 1 ∧
    (run_interrupt startedState).2.countP Effect.isStopStream = 0 :=
  interrupt_leaves_capture_stream_open startedState rfl rfl

/-! ### Repeated transcription (C8) -/

/-- Run `transcribe` `n` times in sequence on the same recorder,
collecting all effects (each run = one finalized clip submitted). -/
def transcribeN (env : Env) : ℕ → RecorderState → RecorderState × List Effect
  | 0, s => (s, [])
  | n + 1, s =>
    let r := transcribe env s
    let r' := transcribeN env n r.1
    (r'.1, r.2.1 ++ r'.2)

theorem transcribe_model_some (env : Env) (s : RecorderState) (m : String)
    (hm : s.model = some m) :
    (transcribe env s).1 = s ∧
    (transcribe env s).2.1.countP Effect.isLoad = 0 := by
  simp [transcribe, hm, transcribeWithModel_effects, List.countP_cons,
    Effect.isLoad]

theorem transcribeN_no_load (env : Env) (n : ℕ) :
    ∀ (s : RecorderState) (m : String), s.model = some m →
      (transcribeN env n s).2.countP Effect.isLoad = 0 := by
  induction n with
  | zero =>
    intro s m hm
    rfl
  | succ k ih =>
    intro s m hm
    have h := transcribe_model_some env s m hm
    simp only [transcribeN, List.countP_append]
    rw [h.1, ih s m hm, h.2]

theorem transcribe_first_load (env : Env) (s : RecorderState)
    (hl : env.load = Except.ok ()) (hm : s.model = none) :
    (transcribe env s).1.model = some s.model_name ∧
    (transcribe env s).2.1.countP Effect.isLoad = 1 := by
  simp [transcribe, hm, hl, transcribeWithModel_effects, List.countP_cons,
    Effect.isLoad]

/-- C8: model acquisition is idempotent — over any sequence of `n ≥ 1`
`transcribe` calls on a recorder that has not yet loaded its model, and
whose first `whisper.load_model` call succeeds, the model-loading
operation is invoked exactly once (on the first call); every later call
finds `self.model` set and performs no load. -/
theorem model_loaded_once (env : Env) (s : RecorderState) (n : ℕ)
    (hl : env.load = Except.ok ()) (hm : s.model = none) (hn : 1 ≤ n) :
    (transcribeN env n s).2.countP Effect.isLoad = 1 := by
  obtain ⟨k, rfl⟩ : ∃ k, n = k + 1 := ⟨n - 1, by omega⟩
  have h := transcribe_first_load env s hl hm
  simp only [transcribeN, List.countP_append]
  rw [h.2, transcribeN_no_load env k (transcribe env s).1 s.model_name h.1]

/-- Witness for C8: two consecutive `transcribe` calls on a fresh
recorder perform exactly one model load. -/
theorem model_loaded_once_witness :
    (transcribeN env0 2 (initState 16000 "medium" none false)).2.countP
      Effect.isLoad = 1 :=
  model_loaded_once env0 (initState 16000 "medium" none false) 2 rfl rfl
    (by omega)

/-! ### Language mapping (C9) -/

/-- C9: the language option handed to the engine — a configured name
that lowercases to `"english"` maps to `"en"`, one that lowercases to
`"norwegian"` maps to `"no"`, any other (non-empty) configured name
passes through verbatim, and with no configured language no language
option is passed at all (engine auto-detection); moreover, once the
model is loaded, a `transcribe` call invokes the engine exactly with
that option. -/
theorem language_option_mapping :
    (∀ name : String, pyLower name = "english" →
      languageOption (some name) = some "en") ∧
    (∀ name : String, pyLower name = "norwegian" →
      languageOption (some name) = some "no") ∧
    (∀ name : String, name ≠ "" → pyLower name ≠ "english" →
      pyLower name ≠ "norwegian" → languageOption (some name) = some name) ∧
    languageOption none = none ∧
    (∀ (env : Env) (s : RecorderState), s.model.isSome = true →
      (transcribe env s).2.1 =
        [Effect.engineTranscribe (languageOption s.language)]) := by
  refine ⟨?_, ?_, ?_, rfl, ?_⟩
  · intro name h
    have h0 : name ≠ "" := by
      intro he
      rw [he] at h
      exact absurd h (by decide)
    simp [languageOption, h0, langCode, h, languageCodes]
  · intro name h
    have h0 : name ≠ "" := by
      intro he
      rw [he] at h
      exact absurd h (by decide)
    simp [languageOption, h0, langCode, h, languageCodes]
  · intro name h0 h1 h2
    simp [languageOption, h0, langCode, languageCodes, h1, h2]
  · intro env s h
    obtain ⟨m, hm⟩ := Option.isSome_iff_exists.1 h
    simp [transcribe, hm, transcribeWithModel_effects]

/-- A recorder with the model already loaded and Norwegian configured. -/
def sLoaded : RecorderState :=
  { recording := false
    audio_data := []
    sample_rate := 16000
    model := some "medium"
    model_name := "medium"
    language := some "Norwegian"
    terminal_mode := false
    openStreams := 0 }

/-- Witness for C9: the three name shapes map as claimed, and a
`transcribe` call on a loaded recorder passes exactly the mapped
option. -/
theorem language_option_mapping_witness :
    languageOption (some "English") = some "en" ∧
    languageOption (some "Norwegian") = some "no" ∧
    languageOption (some "swedish") = some "swedish" ∧
    (transcribe env0 sLoaded).2.1 =
      [Effect.engineTranscribe (languageOption sLoaded.language)] :=
  ⟨language_option_mapping.1 "English" (by decide),
   language_option_mapping.2.1 "Norwegian" (by decide),
   language_option_mapping.2.2.1 "swedish" (by decide) (by decide) (by decide),
   language_option_mapping.2.2.2.2 env0 sLoaded rfl⟩
